import Mathlib

/-!
Verification development for `pyrosimple/scripts/base.py`: the command-line
script harness (`ScriptBase` / `ScriptBaseWithConfig`).  The Python source is
shallowly embedded below; each claim of the specification is then settled as a
theorem about the embedded definitions.
-/

namespace PyroBase

/-! ## Connection-alias resolution (`ScriptBaseWithConfig`)

The configuration entry `config.settings["CONNECTIONS"]` is a dictionary
mapping alias names to either a single endpoint string or a list of endpoint
strings (spec §3, "ConnectionAlias").  We model it as an association list with
a first-match lookup, which agrees with a Python dict on tables whose keys are
distinct. -/

/-- A value stored in the `CONNECTIONS` alias table: a single endpoint string
or a list of endpoint strings. -/
inductive ConnVal where
  | str (s : String)
  | list (l : List String)
deriving DecidableEq, Repr

/-- An alias table: association list from alias name to stored value. -/
abbrev ConnTable := List (String × ConnVal)

/-- Escape a list of characters for Python `repr`: backslashes and the chosen
quote character are backslash-escaped.  (Escaping of non-printable characters
is not modelled; endpoint strings are printable.) -/
def pyEscapeList (q : Char) : List Char → List Char
  | [] => []
  | c :: rest =>
    if c = '\\' then '\\' :: '\\' :: pyEscapeList q rest
    else if c = q then '\\' :: c :: pyEscapeList q rest
    else c :: pyEscapeList q rest

/-- Python `repr` of a string: wrapped in single quotes, unless the string
contains a single quote and no double quote, in which case double quotes are
used. -/
def pyReprStr (s : String) : String :=
  let q : Char :=
    if s.toList.contains '\'' && !(s.toList.contains '"') then '"' else '\''
  String.mk (q :: pyEscapeList q s.toList ++ [q])

/-- Python `", ".join(...)`. -/
def joinComma : List String → String
  | [] => ""
  | [s] => s
  | s :: rest => s ++ ", " ++ joinComma rest

/-- Python `str` applied to a stored connection value: a string maps to
itself, a list of strings to its Python rendering
`[` + comma-separated `repr`s + `]`. -/
def pyStr : ConnVal → String
  | .str s => s
  | .list l => "[" ++ joinComma (l.map pyReprStr) ++ "]"

/-- `ScriptBaseWithConfig.lookup_connection_alias`:

    if url in config.settings["CONNECTIONS"]:
        return str(config.settings["CONNECTIONS"][url])
    return url
-/
def lookup_connection_alias (conns : ConnTable) (url : String) : String :=
  match conns.lookup url with
  | some v => pyStr v
  | none => url

/-- `ScriptBaseWithConfig.multi_connection_lookup` (the generator's yielded
elements, in order):

    val = config.settings["CONNECTIONS"].get(url, [url])
    if isinstance(val, list):
        for v in val:
            yield self.lookup_connection_alias(v)
    else:
        yield self.lookup_connection_alias(val)
-/
def multi_connection_lookup (conns : ConnTable) (url : String) : List String :=
  let val : ConnVal := (conns.lookup url).getD (.list [url])
  match val with
  | .list l => l.map (lookup_connection_alias conns)
  | .str s => [lookup_connection_alias conns s]

/-! ## The run lifecycle (`ScriptBase.run`)

`run()` wraps `get_options()` and `mainloop()` in a `try`/`except`/`finally`.
We embed it as a function from the observable behaviours of its two callees to
the trace of observable effects of `run()` itself: how many total-time log
lines are emitted, how many times the logging subsystem is shut down, which
notices are printed, and how the call terminates.  Python `finally` semantics
guarantee the `finally` suite runs exactly once on every exit path, including
`sys.exit` (which raises `SystemExit`) and re-raised exceptions; the embedding
makes that explicit in each branch. -/

/-- Modelled from the spec: the exit-code constants of the `pyrosimple.error`
module (not under `src/`).  The spec names the software-error,
temporary-failure and I/O-error categories of POSIX `sysexits`. -/
def EX_SOFTWARE : Int := 70

/-- Modelled from the spec: temporary-failure exit code (`sysexits`). -/
def EX_TEMPFAIL : Int := 75

/-- Modelled from the spec: I/O-error exit code (`sysexits`). -/
def EX_IOERR : Int := 74

/-- `errno.EPIPE`, the broken-pipe error number; the source's comment reads
`[Errno 32] Broken pipe?`. -/
def EPIPE : Int := 32

/-- Observable behaviour of `get_options()` inside `run()`: either it
completes (leaving `self.options` set to the parsed, truthy namespace), or it
terminates early with `SystemExit` before `self.options` is assigned — the
argument parser's usage-error exit or the `--version` action. -/
inductive ParseOutcome where
  | completed
  | earlyExit (code : Int)
deriving DecidableEq, Repr

/-- Observable behaviour of `mainloop()`: normal return, or one of the
exception classes distinguished by `run()`'s handlers (`error.LoggableError`,
`KeyboardInterrupt`, `OSError` with an errno, a direct `sys.exit`, or any
other exception). -/
inductive MainOutcome where
  | returned
  | loggableError
  | keyboardInterrupt
  | osError (eno : Int)
  | sysExitCall (code : Int)
  | otherError
deriving DecidableEq, Repr

/-- How the embedded `run()` terminates. -/
inductive RunOutcome where
  | returned
  | sysExit (code : Int)
  | osErrorRaised (eno : Int)
  | exceptionRaised
deriving DecidableEq, Repr

/-- The observable effects of one call to `run()`. -/
structure RunTrace where
  totalTimeLogs : Nat
  shutdowns : Nat
  tracePrinted : Bool
  abortNoticePrinted : Bool
  pipeNoticePrinted : Bool
  outcome : RunOutcome
deriving DecidableEq, Repr

/-- `ScriptBase.run`, embedded over the callee behaviours and the current
`self.return_code`.  `log_total` is initialised to `True` and never changed,
so the timing log in the `finally` suite is guarded only by `self.options`
being set (truthy), i.e. by `get_options()` having completed; the `finally`
suite (timing log plus `logging.shutdown()`) runs exactly once on every path;
the trailing `if self.return_code: sys.exit(self.return_code)` is reached
only when no exception propagated out of the `try`/`finally`. -/
def run (parse : ParseOutcome) (main : MainOutcome) (return_code : Int) :
    RunTrace :=
  match parse with
  | .earlyExit code =>
      { totalTimeLogs := 0, shutdowns := 1, tracePrinted := false,
        abortNoticePrinted := false, pipeNoticePrinted := false,
        outcome := .sysExit code }
  | .completed =>
    match main with
    | .returned =>
        { totalTimeLogs := 1, shutdowns := 1, tracePrinted := false,
          abortNoticePrinted := false, pipeNoticePrinted := false,
          outcome := if return_code = 0 then .returned
                     else .sysExit return_code }
    | .loggableError =>
        { totalTimeLogs := 1, shutdowns := 1, tracePrinted := true,
          abortNoticePrinted := false, pipeNoticePrinted := false,
          outcome := .sysExit EX_SOFTWARE }
    | .keyboardInterrupt =>
        { totalTimeLogs := 1, shutdowns := 1, tracePrinted := false,
          abortNoticePrinted := true, pipeNoticePrinted := false,
          outcome := .sysExit EX_TEMPFAIL }
    | .osError eno =>
        if eno = EPIPE then
          { totalTimeLogs := 1, shutdowns := 1, tracePrinted := false,
            abortNoticePrinted := false, pipeNoticePrinted := true,
            outcome := .sysExit EX_IOERR }
        else
          { totalTimeLogs := 1, shutdowns := 1, tracePrinted := false,
            abortNoticePrinted := false, pipeNoticePrinted := false,
            outcome := .osErrorRaised eno }
    | .sysExitCall code =>
        { totalTimeLogs := 1, shutdowns := 1, tracePrinted := false,
          abortNoticePrinted := false, pipeNoticePrinted := false,
          outcome := .sysExit code }
    | .otherError =>
        { totalTimeLogs := 1, shutdowns := 1, tracePrinted := false,
          abortNoticePrinted := false, pipeNoticePrinted := false,
          outcome := .exceptionRaised }

/-! ## Option registration (`ScriptBase.add_value_option`)

`add_value_option(*args, **kwargs)` mutates its `kwargs` dict in four steps
and then registers the option via `self.parser.add_argument(*args[:-1],
**kwargs)`.  We model `kwargs` as a record of optional entries (presence of a
key = `some`), model each mutating statement, and treat registration as
returning the final `(args[:-1], kwargs)` pair.  Python `KeyError` /
`IndexError` become explicit `Except` errors. -/

/-- Python `str.replace(old, new)` on character lists: replaces
non-overlapping occurrences left to right, continuing after each replacement.
The `fuel` argument is instantiated with the length of the subject list; an
empty pattern (which Python treats specially) is left un-replaced, but the
source only uses the patterns `"--"` and `"-"`. -/
def listReplace (old new : List Char) : Nat → List Char → List Char
  | 0, s => s
  | fuel + 1, s =>
    match s with
    | [] => []
    | c :: rest =>
      if !old.isEmpty && old.isPrefixOf s then
        new ++ listReplace old new fuel (s.drop old.length)
      else c :: listReplace old new fuel rest

/-- Python `str.replace(old, new)`. -/
def pyReplace (s old new : String) : String :=
  String.mk (listReplace old.toList new.toList s.toList.length s.toList)

/-- Python `str.startswith(p)`. -/
def pyStartsWith (s p : String) : Bool :=
  p.toList.isPrefixOf s.toList

/-- The `kwargs` dict of `add_value_option`, as a record of optional entries.
A key is present exactly when its field is `some`.  Scalar values (`dest`,
`help`, `default`, `type`, `metavar`) are modelled as strings; `choices` as a
list of strings.  The field for the `type` key is spelled `type_` because
`type` is reserved in Lean. -/
structure Kwargs where
  dest : Option String := none
  help : Option String := none
  default : Option String := none
  choices : Option (List String) := none
  type_ : Option String := none
  metavar : Option String := none
deriving DecidableEq, Repr

/-- A Python exception escaping the modelled fragment. -/
inductive PyErr where
  | keyError (key : String)
  | indexError
deriving DecidableEq, Repr

/-- `kwargs["metavar"] = args[-1]` — `IndexError` when `args` is empty. -/
def setMetavar (args : List String) (kw : Kwargs) : Except PyErr Kwargs :=
  match args.getLast? with
  | some last => .ok { kw with metavar := some last }
  | none => .error .indexError

/-- `if "dest" not in kwargs: kwargs["dest"] =
[o for o in args if o.startswith("--")][0].replace("--", "").replace("-", "_")`
— `IndexError` when no long option exists and `dest` was not given. -/
def deriveDest (args : List String) (kw : Kwargs) : Except PyErr Kwargs :=
  match kw.dest with
  | some _ => .ok kw
  | none =>
    match (args.filter (fun o => pyStartsWith o "--")).head? with
    | some long =>
        .ok { kw with dest := some (pyReplace (pyReplace long "--" "") "-" "_") }
    | none => .error .indexError

/-- `if "default" in kwargs and kwargs["default"]:
kwargs["help"] += f" [{kwargs['default']}]"` — a truthy (non-empty) default is
appended to the help text; `KeyError` when `help` is absent in that case. -/
def appendDefaultToHelp (kw : Kwargs) : Except PyErr Kwargs :=
  match kw.default with
  | some d =>
      if d ≠ "" then
        match kw.help with
        | some h => .ok { kw with help := some (h ++ " [" ++ d ++ "]") }
        | none => .error (.keyError "help")
      else .ok kw
  | none => .ok kw

/-- `if "choices" in kwargs: del kwargs["type"]` — the deletion is
unconditional once `choices` is present, so a missing `type` key raises
`KeyError`. -/
def deleteTypeForChoices (kw : Kwargs) : Except PyErr Kwargs :=
  match kw.choices with
  | some _ =>
      match kw.type_ with
      | some _ => .ok { kw with type_ := none }
      | none => .error (.keyError "type")
  | none => .ok kw

/-- `ScriptBase.add_value_option`: the four mutating statements in source
order, then `add_argument(*args[:-1], **kwargs)`, modelled as returning the
registered pair. -/
def add_value_option (args : List String) (kwargs : Kwargs) :
    Except PyErr (List String × Kwargs) :=
  (((setMetavar args kwargs).bind (deriveDest args)).bind
      appendDefaultToHelp).bind
    (fun kw => (deleteTypeForChoices kw).map (fun kw2 => (args.dropLast, kw2)))

/-! ## RPC usage reporting (`ScriptBase.rpc_stats`)

`rpc_stats` reads four counters owned by the external RPC transport layer
(`io.scgi.request_counter`, `request_size_counter`, `response_time_summary`,
`response_size_counter`) and formats them into one sentence.  The counter
reads are inputs of the embedding; the response-time summary is the list of
its child samples (count and sum), of which the source reads index 1. -/

/-- Modelled from the spec: `fmt.human_size` of the `pyrosimple.util.fmt`
module (not under `src/`), a pure formatting function rendering a byte count
human-readably.  Sizes below one KiB render as `<n> bytes`, larger sizes with
binary-prefix units. -/
def human_size (n : Nat) : String :=
  if n < 1024 then toString n ++ " bytes"
  else if n < 1024 * 1024 then toString (n / 1024) ++ " KiB"
  else if n < 1024 * 1024 * 1024 then toString (n / (1024 * 1024)) ++ " MiB"
  else toString (n / (1024 * 1024 * 1024)) ++ " GiB"

/-- Python `round(x, 3)`, scaled to an integer number of thousandths.  (Exact
ties are rounded up here rather than to even; the claims proved below do not
depend on tie behaviour.) -/
def pyRound3 (q : ℚ) : Int := ⌊q * 1000 + 1/2⌋

/-- The digits after the decimal point when Python renders a float that is an
integer multiple of one thousandth: three digits with trailing zeros removed,
but at least one digit (`0.0`, `0.5`, `0.25`, `0.123`). -/
def fracDigits (f : Nat) : String :=
  let d1 := f / 100
  let d2 := f / 10 % 10
  let d3 := f % 10
  if d3 ≠ 0 then toString d1 ++ toString d2 ++ toString d3
  else if d2 ≠ 0 then toString d1 ++ toString d2
  else toString d1

/-- Python string rendering of the float `m / 1000` (the result of
`round(x, 3)` given as thousandths). -/
def renderRound3 (m : Int) : String :=
  (if m < 0 then "-" else "") ++ toString (m.natAbs / 1000) ++ "."
    ++ fracDigits (m.natAbs % 1000)

/-- `ScriptBase.rpc_stats` over the counter state:

    req_num = int(io.scgi.request_counter._value.get())
    req_sz = fmt.human_size(io.scgi.request_size_counter._value.get())
    req_time = round(list(io.scgi.response_time_summary._child_samples())[1].value, 3)
    resp_sz = fmt.human_size(io.scgi.response_size_counter._value.get())
    return f"{req_num} requests ({req_sz}) in {req_time}s (repsonse {resp_sz})"

`none` models the `IndexError` raised when the summary yields fewer than two
child samples; the source keeps the typo `repsonse`. -/
def rpc_stats (req_num req_size : Nat) (response_time_samples : List ℚ)
    (response_size : Nat) : Option String :=
  match response_time_samples.get? 1 with
  | none => none
  | some v =>
      some (toString req_num ++ " requests (" ++ human_size req_size
        ++ ") in " ++ renderRound3 (pyRound3 v) ++ "s (repsonse "
        ++ human_size response_size ++ ")")

end PyroBase

namespace PyroBase

/-- **C1** (counterexample).  The claim states that when the stored value is
not a single string (e.g. a list), `lookup_connection_alias` returns the token
itself unchanged.  On the table `{"t": ["a", "b"]}` and token `"t"` the code
instead returns `str(["a", "b"])`, the Python rendering of the list, which is
not the token. -/
theorem c1_counterexample :
    lookup_connection_alias [("t", ConnVal.list ["a", "b"])] "t" = "['a', 'b']" ∧
    lookup_connection_alias [("t", ConnVal.list ["a", "b"])] "t" ≠ "t" := by
  constructor
  · decide
  · decide

/-- **C1** (amended).  `lookup_connection_alias` returns the stored value when
the token is a key whose value is a single string; when the token is absent it
returns the token unchanged; when the stored value is a list it returns the
Python string rendering of that list (not the token).  It is total, hence
never an error. -/
theorem c1_lookup_connection_alias_cases (conns : ConnTable) (t : String) :
    (∀ s, conns.lookup t = some (ConnVal.str s) →
      lookup_connection_alias conns t = s) ∧
    (conns.lookup t = none → lookup_connection_alias conns t = t) ∧
    (∀ l, conns.lookup t = some (ConnVal.list l) →
      lookup_connection_alias conns t =
        "[" ++ joinComma (l.map pyReprStr) ++ "]") := by
  refine ⟨fun s h => ?_, fun h => ?_, fun l h => ?_⟩ <;>
    simp [lookup_connection_alias, h, pyStr]

/-- **C1** (witness).  The amended claim applied to the concrete table
`{"home": "192.168.1.5:80"}`: the string-valued key resolves to its value and
the absent token `"office"` passes through. -/
theorem c1_lookup_connection_alias_cases_witness :
    lookup_connection_alias [("home", ConnVal.str "192.168.1.5:80")] "home" =
      "192.168.1.5:80" ∧
    lookup_connection_alias [("home", ConnVal.str "192.168.1.5:80")] "office" =
      "office" :=
  ⟨(c1_lookup_connection_alias_cases
      [("home", ConnVal.str "192.168.1.5:80")] "home").1
      "192.168.1.5:80" (by decide),
   (c1_lookup_connection_alias_cases
      [("home", ConnVal.str "192.168.1.5:80")] "office").2.1 (by decide)⟩

/-- **C2** (counterexample).  The claim states that for a string-valued alias
`T[t] = s`, `multi_connection_lookup t` yields exactly one element equal to
`s` (i.e. not a further-resolved value).  On the table
`{"a": "b", "b": "c"}` and token `"a"`, `lookup_connection_alias "a" = "b"`
but `multi_connection_lookup "a"` yields `["c"]`: the stored value `"b"` is
resolved one more time. -/
theorem c2_counterexample :
    lookup_connection_alias
      [("a", ConnVal.str "b"), ("b", ConnVal.str "c")] "a" = "b" ∧
    multi_connection_lookup
      [("a", ConnVal.str "b"), ("b", ConnVal.str "c")] "a" = ["c"] := by
  constructor <;> decide

/-- **C2** (amended).  For every alias table `T` and token `t` with
`T[t]` a single string `s`, `lookup_connection_alias t = s`, and
`multi_connection_lookup t` yields exactly one element, namely
`lookup_connection_alias s` — the stored string resolved through the alias
table once more (so it equals `s` exactly when `s` is not itself a key). -/
theorem c2_string_alias_resolution (conns : ConnTable) (t s : String)
    (h : conns.lookup t = some (ConnVal.str s)) :
    lookup_connection_alias conns t = s ∧
    multi_connection_lookup conns t = [lookup_connection_alias conns s] := by
  constructor
  · simp [lookup_connection_alias, h, pyStr]
  · simp [multi_connection_lookup, h]

/-- **C2** (witness).  The amended claim at the concrete table
`{"a": "b", "b": "c"}` and token `"a"`. -/
theorem c2_string_alias_resolution_witness :
    lookup_connection_alias
      [("a", ConnVal.str "b"), ("b", ConnVal.str "c")] "a" = "b" ∧
    multi_connection_lookup
      [("a", ConnVal.str "b"), ("b", ConnVal.str "c")] "a" =
      [lookup_connection_alias
        [("a", ConnVal.str "b"), ("b", ConnVal.str "c")] "b"] :=
  c2_string_alias_resolution
    [("a", ConnVal.str "b"), ("b", ConnVal.str "c")] "a" "b" (by decide)

/-- **C5**.  For every alias table `T` with `T[t]` a list `l` of length `n`
(including `n = 0`), `multi_connection_lookup t` yields exactly `n` elements,
in the order of `l`, each being `lookup_connection_alias` applied to the
corresponding entry of `l`; an empty list yields zero connections. -/
theorem c5_list_alias_resolution (conns : ConnTable) (t : String)
    (l : List String) (h : conns.lookup t = some (ConnVal.list l)) :
    multi_connection_lookup conns t = l.map (lookup_connection_alias conns) ∧
    (multi_connection_lookup conns t).length = l.length := by
  refine ⟨?_, ?_⟩ <;> simp [multi_connection_lookup, h]

/-- **C5** (witness).  The spec's example table
`{"seedbox": ["10.0.0.1:80", "10.0.0.2:80"]}` fans out to both endpoints in
order, and an empty list yields zero connections. -/
theorem c5_list_alias_resolution_witness :
    multi_connection_lookup
      [("seedbox", ConnVal.list ["10.0.0.1:80", "10.0.0.2:80"])] "seedbox" =
      ["10.0.0.1:80", "10.0.0.2:80"] ∧
    multi_connection_lookup [("empty", ConnVal.list [])] "empty" = [] := by
  have h1 := c5_list_alias_resolution
    [("seedbox", ConnVal.list ["10.0.0.1:80", "10.0.0.2:80"])] "seedbox"
    ["10.0.0.1:80", "10.0.0.2:80"] (by decide)
  have h2 := c5_list_alias_resolution [("empty", ConnVal.list [])] "empty" []
    (by decide)
  exact ⟨h1.1.trans (by decide), h2.1.trans (by decide)⟩

/-- **C6**.  For every alias table `T` and token `t` absent from `T`,
`multi_connection_lookup t` yields exactly one element, equal to `t` itself
(the default `[url]` is a one-element list whose entry resolves to itself). -/
theorem c6_absent_token_singleton (conns : ConnTable) (t : String)
    (h : conns.lookup t = none) :
    multi_connection_lookup conns t = [t] := by
  simp [multi_connection_lookup, h, lookup_connection_alias]

/-- **C6** (witness).  The spec's example: table `{"home": "192.168.1.5:80"}`
and absent token `"office"`. -/
theorem c6_absent_token_singleton_witness :
    multi_connection_lookup [("home", ConnVal.str "192.168.1.5:80")] "office" =
      ["office"] :=
  c6_absent_token_singleton [("home", ConnVal.str "192.168.1.5:80")] "office"
    (by decide)

/-- **C3**.  In every run: if option parsing does not complete (usage-error
exit or `--version` short-circuit), no total-time log line is emitted; if it
completes, exactly one total-time log line is emitted, whatever `mainloop()`
does; and the finalization (timing guard plus `logging.shutdown()`) executes
exactly once on every exit path, exceptional ones included. -/
theorem c3_timing_and_finalization
    (parse : ParseOutcome) (main : MainOutcome) (rc : Int) :
    (run parse main rc).shutdowns = 1 ∧
    (run parse main rc).totalTimeLogs =
      (match parse with | .completed => 1 | .earlyExit _ => 0) := by
  cases parse <;> cases main <;> simp only [run] <;>
    first
    | (split <;> simp)
    | simp

/-- **C4**.  The top-level failure classification of `run()` after option
parsing completed: a `LoggableError` prints the traceback and exits with
`EX_SOFTWARE`; a `KeyboardInterrupt` prints the aborted notice, no trace, and
exits with `EX_TEMPFAIL`; an `OSError` with errno `EPIPE` prints the
broken-pipe notice, no trace, and exits with `EX_IOERR`; every other `OSError`
is re-raised unclassified. -/
theorem c4_failure_classification (rc : Int) (eno : Int) :
    ((run .completed .loggableError rc).outcome = .sysExit EX_SOFTWARE ∧
      (run .completed .loggableError rc).tracePrinted = true) ∧
    ((run .completed .keyboardInterrupt rc).outcome = .sysExit EX_TEMPFAIL ∧
      (run .completed .keyboardInterrupt rc).abortNoticePrinted = true ∧
      (run .completed .keyboardInterrupt rc).tracePrinted = false) ∧
    ((run .completed (.osError eno) rc).outcome =
        (if eno = EPIPE then .sysExit EX_IOERR else .osErrorRaised eno) ∧
      (run .completed (.osError eno) rc).pipeNoticePrinted =
        (eno = EPIPE : Bool) ∧
      (run .completed (.osError eno) rc).tracePrinted = false) := by
  refine ⟨⟨rfl, rfl⟩, ⟨rfl, rfl, rfl⟩, ?_, ?_, ?_⟩ <;>
    by_cases h : eno = EPIPE <;> simp [run, h]

/-- **C7**.  When `mainloop()` returns normally, `run()` exits with the
subcommand's explicit return code when it is nonzero and returns normally
(success, exit code 0) otherwise; on every failure path the outcome is decided
before the return-code check, independently of `return_code`. -/
theorem c7_return_code (rc : Int) (eno code : Int) (m : MainOutcome) :
    (run .completed .returned rc).outcome =
      (if rc = 0 then .returned else .sysExit rc) ∧
    (run .completed .loggableError rc).outcome = .sysExit EX_SOFTWARE ∧
    (run .completed .keyboardInterrupt rc).outcome = .sysExit EX_TEMPFAIL ∧
    (run .completed (.osError eno) rc).outcome =
      (if eno = EPIPE then .sysExit EX_IOERR else .osErrorRaised eno) ∧
    (run .completed .otherError rc).outcome = .exceptionRaised ∧
    (run (.earlyExit code) m rc).outcome = .sysExit code := by
  refine ⟨rfl, rfl, rfl, ?_, rfl, rfl⟩
  by_cases h : eno = EPIPE <;> simp [run, h]

/-! ### Helper lemmas for `add_value_option` -/

theorem except_bind_ok {ε α β : Type} {x : Except ε α} {f : α → Except ε β}
    {b : β} (h : x.bind f = .ok b) : ∃ a, x = .ok a ∧ f a = .ok b := by
  cases x with
  | error e => simp [Except.bind] at h
  | ok a => exact ⟨a, rfl, by simpa [Except.bind] using h⟩

theorem except_map_ok {ε α β : Type} {x : Except ε α} {f : α → β} {b : β}
    (h : x.map f = .ok b) : ∃ a, x = .ok a ∧ f a = b := by
  cases x with
  | error e => simp [Except.map] at h
  | ok a => exact ⟨a, rfl, by simpa [Except.map] using h⟩

theorem setMetavar_fields {args : List String} {kw kw' : Kwargs}
    (h : setMetavar args kw = .ok kw') :
    kw'.choices = kw.choices ∧ kw'.type_ = kw.type_ := by
  unfold setMetavar at h
  split at h <;> simp_all
  obtain ⟨rfl⟩ := h
  simp

theorem deriveDest_fields {args : List String} {kw kw' : Kwargs}
    (h : deriveDest args kw = .ok kw') :
    kw'.choices = kw.choices ∧ kw'.type_ = kw.type_ := by
  unfold deriveDest at h
  split at h
  · simp_all
  · split at h <;> simp_all
    obtain ⟨rfl⟩ := h
    simp

theorem appendDefaultToHelp_fields {kw kw' : Kwargs}
    (h : appendDefaultToHelp kw = .ok kw') :
    kw'.choices = kw.choices ∧ kw'.type_ = kw.type_ := by
  unfold appendDefaultToHelp at h
  split at h
  · split at h
    · split at h <;> simp_all
      obtain ⟨rfl⟩ := h
      simp
    · simp_all
  · simp_all

theorem deleteTypeForChoices_ok {kw kw' : Kwargs}
    (h : deleteTypeForChoices kw = .ok kw') (hch : kw.choices.isSome) :
    kw'.type_ = none := by
  unfold deleteTypeForChoices at h
  split at h
  · split at h <;> simp_all
    obtain ⟨rfl⟩ := h
    simp
  · simp_all

theorem deleteTypeForChoices_err {kw : Kwargs}
    (hch : kw.choices.isSome) (hty : kw.type_ = none) :
    deleteTypeForChoices kw = .error (.keyError "type") := by
  unfold deleteTypeForChoices
  cases hc : kw.choices with
  | none => simp [hc] at hch
  | some cs => simp [hty]

/-- **C9**.  Whenever `add_value_option` is called with a `choices` keyword
and the registration succeeds, the registered keyword set carries no
value-coercion `type`: the `type` entry declared alongside `choices` has been
deleted before `add_argument` runs. -/
theorem c9_choices_suppress_type (args : List String) (kwargs : Kwargs)
    (out : List String × Kwargs) (hch : kwargs.choices.isSome)
    (hok : add_value_option args kwargs = .ok out) :
    out.2.type_ = none := by
  unfold add_value_option at hok
  obtain ⟨kw3, h3, hmap⟩ := except_bind_ok hok
  obtain ⟨kw2, h2, hd3⟩ := except_bind_ok h3
  obtain ⟨kw1, h1, hd2⟩ := except_bind_ok h2
  obtain ⟨kw4, hdel, hout⟩ := except_map_ok hmap
  have hpres : kw3.choices = kwargs.choices := by
    rw [(appendDefaultToHelp_fields hd3).1, (deriveDest_fields hd2).1,
      (setMetavar_fields h1).1]
  have : kw4.type_ = none :=
    deleteTypeForChoices_ok hdel (by rw [hpres]; exact hch)
  rw [← hout]
  exact this

/-- **C9** (witness).  A concrete registration with both `choices` and `type`
declared: the registered option has no `type` entry. -/
theorem c9_choices_suppress_type_witness :
    add_value_option ["--output-format", "FORMAT"]
        { help := some "h", choices := some ["a", "b"], type_ := some "str" } =
      .ok (["--output-format"],
        { dest := some "output_format", help := some "h",
          choices := some ["a", "b"], type_ := none,
          metavar := some "FORMAT" }) ∧
    (["--output-format"],
      ({ dest := some "output_format", help := some "h",
         choices := some ["a", "b"], type_ := none,
         metavar := some "FORMAT" } : Kwargs)).2.type_ = none := by
  refine ⟨by rfl, ?_⟩
  exact c9_choices_suppress_type ["--output-format", "FORMAT"]
    { help := some "h", choices := some ["a", "b"], type_ := some "str" }
    _ (by decide) (by rfl)

/-- **C10**.  Calling `add_value_option` with a `choices` keyword but without
a `type` keyword never registers the option: no successful result is
possible, and whenever the three statements before the deletion succeed, the
call fails with `KeyError` on the `type` entry. -/
theorem c10_missing_type_keyerror (args : List String) (kwargs : Kwargs)
    (hch : kwargs.choices.isSome) (hty : kwargs.type_ = none) :
    (∀ r, add_value_option args kwargs ≠ .ok r) ∧
    (∀ kw3,
      ((setMetavar args kwargs).bind (deriveDest args)).bind
          appendDefaultToHelp = .ok kw3 →
      add_value_option args kwargs = .error (.keyError "type")) := by
  have key : ∀ kw3,
      ((setMetavar args kwargs).bind (deriveDest args)).bind
          appendDefaultToHelp = .ok kw3 →
      deleteTypeForChoices kw3 = .error (.keyError "type") := by
    intro kw3 h3
    obtain ⟨kw2, h2, hd3⟩ := except_bind_ok h3
    obtain ⟨kw1, h1, hd2⟩ := except_bind_ok h2
    refine deleteTypeForChoices_err ?_ ?_
    · rw [(appendDefaultToHelp_fields hd3).1, (deriveDest_fields hd2).1,
        (setMetavar_fields h1).1]
      exact hch
    · rw [(appendDefaultToHelp_fields hd3).2, (deriveDest_fields hd2).2,
        (setMetavar_fields h1).2]
      exact hty
  constructor
  · intro r hok
    unfold add_value_option at hok
    obtain ⟨kw3, h3, hmap⟩ := except_bind_ok hok
    rw [key kw3 h3] at hmap
    simp [Except.map] at hmap
  · intro kw3 h3
    unfold add_value_option
    rw [h3]
    simp [Except.bind, key kw3 h3, Except.map]

/-- **C10** (witness).  A concrete call with `choices` but no `type`: the
three preceding statements succeed, and the call raises `KeyError`. -/
theorem c10_missing_type_keyerror_witness :
    add_value_option ["--output-format", "FORMAT"]
        { help := some "h", choices := some ["a", "b"] } =
      .error (.keyError "type") :=
  (c10_missing_type_keyerror ["--output-format", "FORMAT"]
      { help := some "h", choices := some ["a", "b"] }
      (by decide) (by decide)).2
    { dest := some "output_format", help := some "h",
      choices := some ["a", "b"], type_ := none, metavar := some "FORMAT" }
    (by rfl)

/-- **C8**.  With all four RPC counters read as zero (request count 0,
request bytes 0, summary samples count 0 and sum 0, response bytes 0),
`rpc_stats` returns a well-formed string containing `"0 requests"` with
zero-valued quantities throughout, rather than an error. -/
theorem c8_zero_counters_summary :
    rpc_stats 0 0 [0, 0] 0 =
      some "0 requests (0 bytes) in 0.0s (repsonse 0 bytes)" ∧
    List.IsInfix "0 requests".toList
      "0 requests (0 bytes) in 0.0s (repsonse 0 bytes)".toList := by
  have h : pyRound3 0 = 0 := by norm_num [pyRound3]
  have e1 : rpc_stats 0 0 [0, 0] 0 =
      some (toString (0 : Nat) ++ " requests (" ++ human_size 0 ++ ") in "
        ++ renderRound3 (pyRound3 0) ++ "s (repsonse " ++ human_size 0
        ++ ")") := rfl
  rw [e1, h]
  exact ⟨by decide, by decide⟩

end PyroBase
